import Mathlib

/-!
Verification of the Telco-churn ETL pipeline
(`src/scripts/extract.py`, `transform.py`, `load.py`, `validation.py`)
against its natural-language specification.

The source is shallowly embedded: pandas data frames become structures of
column lists, the Supabase client becomes an `Except`-valued configuration
check, exact rationals stand for the numeric columns, and the observable
behaviour of each entry point (file reads, insert attempts, sleeps, count
queries) is recorded as an explicit effect trace.
-/

namespace ETL

/-! ## Constants and configuration (`load.py` lines 12-27) -/

def BATCH_SIZE : Nat := 200

def MAX_RETRIES : Nat := 3

/-- `required_cols` from `load.py`: the 12 columns kept for insertion. -/
def required_cols : List String :=
  ["tenure", "MonthlyCharges", "TotalCharges", "Churn", "InternetService",
   "Contract", "PaymentMethod", "tenure_group", "monthly_charge_segment",
   "has_internet_service", "is_multi_line_user", "contract_type_code"]

/-- Python truthiness of an optional environment string: `None` and the
empty string are falsy (`if not url or not key`). -/
def truthy : Option String → Bool
  | none => false
  | some s => !s.isEmpty

/-- `get_supabase_client` (`load.py` lines 18-27, `validation.py` 15-24):
raises `ValueError` when either setting is absent, otherwise yields a
client (abstracted to `Unit`). -/
def get_supabase_client (url key : Option String) : Except String Unit :=
  if truthy url && truthy key then Except.ok ()
  else Except.error "Missing SUPABASE_URL or SUPABASE_KEY in .env"

/-! ## Observable effects of a run -/

/-- The externally observable operations the scripts perform, with `ρ` the
type of a staged record. `writeFile` is emitted by the extract/transform
stages only; the loader and validator are expected never to emit it. -/
inductive Effect (ρ : Type) where
  | readFile (path : String)
  | writeFile (path : String)
  | insertRows (table : String) (batchNumber : Nat) (records : List ρ) (attempt : Nat)
  | sleep (units : Nat)
  | countQuery (table : String)
  | rpcCreateTable (table : String)
deriving DecidableEq

def isInsert {ρ : Type} : Effect ρ → Bool
  | Effect.insertRows _ _ _ _ => true
  | _ => false

/-- An effect that only reads external state, never mutates it. -/
def readonlyEffect {ρ : Type} : Effect ρ → Bool
  | Effect.readFile _ => true
  | Effect.countQuery _ => true
  | _ => false

/-! ## Batch partition (`load.py` lines 120-131)

`for i in range(0, total_rows, BATCH_SIZE): batch = df.iloc[i:i+BATCH_SIZE]`. -/

/-- Number of iterations of `range(0, total, BATCH_SIZE)`. -/
def nbatches (total : Nat) : Nat := (total + (BATCH_SIZE - 1)) / BATCH_SIZE

/-- The consecutive slices `df.iloc[i:i+BATCH_SIZE]` taken by the loader. -/
def batches {α : Type} (l : List α) : List (List α) :=
  (List.range (nbatches l.length)).map (fun j => (l.drop (j * BATCH_SIZE)).take BATCH_SIZE)

theorem batches_nil {α : Type} : batches ([] : List α) = [] := by
  simp [batches, nbatches, BATCH_SIZE]

theorem batches_cons {α : Type} (l : List α) (h : l ≠ []) :
    batches l = l.take BATCH_SIZE :: batches (l.drop BATCH_SIZE) := by
  have hl : 0 < l.length := List.length_pos.mpr h
  have hn : nbatches l.length = nbatches (l.length - BATCH_SIZE) + 1 := by
    simp only [nbatches, BATCH_SIZE]
    omega
  simp only [batches, hn, List.range_succ_eq_map, List.map_cons, List.map_map,
    Nat.zero_mul, List.drop_zero, List.length_drop]
  congr 1
  apply List.map_congr_left
  intro j _
  simp only [Function.comp_apply, List.drop_drop]
  congr 2
  simp only [BATCH_SIZE]
  omega

theorem batches_flatten {α : Type} (l : List α) : (batches l).flatten = l := by
  by_cases h : l = []
  · subst h; rw [batches_nil]; rfl
  · rw [batches_cons l h]
    have hlt : (l.drop BATCH_SIZE).length < l.length := by
      have hl : 0 < l.length := List.length_pos.mpr h
      simp only [List.length_drop, BATCH_SIZE]
      omega
    rw [List.flatten_cons, batches_flatten (l.drop BATCH_SIZE), List.take_append_drop]
termination_by l.length
decreasing_by exact hlt

theorem batches_length {α : Type} (l : List α) :
    (batches l).length = nbatches l.length := by
  simp [batches]

theorem batches_sizes {α : Type} (l : List α) :
    (batches l).all (fun b => b.length ≤ BATCH_SIZE) = true := by
  simp only [List.all_eq_true, decide_eq_true_eq]
  intro b hb
  simp only [batches, List.mem_map] at hb
  obtain ⟨j, _, rfl⟩ := hb
  simp [List.length_take]

/-! ## Retry loop (`load.py` lines 132-154)

`attempt = 1; while attempt <= MAX_RETRIES: try insert / except: if
attempt == MAX_RETRIES: skip; else sleep(2*attempt); attempt += 1`.
The oracle `ins attempt` tells whether the insert call of a given attempt
number succeeds. -/

def attemptLoop {ρ : Type} (tbl : String) (ins : Nat → Bool) (bn : Nat)
    (recs : List ρ) (attempt : Nat) : List (Effect ρ) × Bool :=
  if h : attempt ≤ MAX_RETRIES then
    if ins attempt then ([Effect.insertRows tbl bn recs attempt], true)
    else if attempt = MAX_RETRIES then ([Effect.insertRows tbl bn recs attempt], false)
    else
      let r := attemptLoop tbl ins bn recs (attempt + 1)
      (Effect.insertRows tbl bn recs attempt :: Effect.sleep (2 * attempt) :: r.1, r.2)
  else ([], false)
termination_by MAX_RETRIES + 1 - attempt
decreasing_by simp only [MAX_RETRIES] at *; omega

/-- One batch of the loader: the retry loop started at `attempt = 1`. -/
def runBatch {ρ : Type} (tbl : String) (ins : Nat → Bool) (bn : Nat)
    (recs : List ρ) : List (Effect ρ) × Bool :=
  attemptLoop tbl ins bn recs 1

/-- All batches in order; `batch_number = i // BATCH_SIZE + 1` becomes the
1-based position. Returns the concatenated effect trace and the per-batch
success flags. -/
def runBatches {ρ : Type} (tbl : String) (ins : Nat → Nat → Bool)
    (bs : List (List ρ)) : List (Effect ρ) × List Bool :=
  let results := bs.enum.map (fun p => runBatch tbl (ins (p.1 + 1)) (p.1 + 1) p.2)
  ((results.map Prod.fst).flatten, results.map Prod.snd)

/-! ## `load_to_supabase` (`load.py` lines 72-159) -/

structure LoadInput (ρ : Type) where
  url : Option String
  key : Option String
  fileExists : Bool
  cols : List String
  rows : List ρ
  ins : Nat → Nat → Bool

inductive LoadStatus where
  | fileNotFound
  | configError
  | missingColumns
  | finished
deriving DecidableEq

/-- `load_to_supabase`: file-existence check, client creation, CSV read,
required-column check, then batched insertion with retry. A raised
configuration error is caught by the outer `except` and ends the run. -/
def load_to_supabase {ρ : Type} (inp : LoadInput ρ) : List (Effect ρ) × LoadStatus :=
  if inp.fileExists = false then ([], LoadStatus.fileNotFound)
  else
    match get_supabase_client inp.url inp.key with
    | Except.error _ => ([], LoadStatus.configError)
    | Except.ok _ =>
      let readEff : List (Effect ρ) := [Effect.readFile "staged"]
      let missing := required_cols.filter (fun c => !inp.cols.contains c)
      if missing ≠ [] then (readEff, LoadStatus.missingColumns)
      else
        let r := runBatches "telco_churn" inp.ins (batches inp.rows)
        (readEff ++ r.1, LoadStatus.finished)

/-- `create_table_if_not_exists` (`load.py` lines 32-67): client creation
inside a `try`; on success the `execute_sql` RPC is attempted; a raised
configuration error is caught and nothing is attempted. -/
def create_table_if_not_exists (url key : Option String) : List (Effect Unit) × Bool :=
  match get_supabase_client url key with
  | Except.error _ => ([], false)
  | Except.ok _ => ([Effect.rpcCreateTable "telco_churn"], true)

/-! ## The transformer (`transform.py`) -/

/-- A raw cell of the `TotalCharges` column before numeric coercion:
a number, an unparseable string (blank/whitespace), or already missing. -/
inductive RawCell where
  | num (q : ℚ)
  | text (s : String)
  | na
deriving DecidableEq

/-- `pd.to_numeric(x, errors="coerce")`: unparseable values become missing. -/
def to_numeric : RawCell → Option ℚ
  | RawCell.num q => some q
  | RawCell.text _ => none
  | RawCell.na => none

/-- `Series.median()`: the median of the non-missing values (pandas skips
NaN); for an even count, the mean of the two middle values; `NaN` (here
`none`) when no value is present. -/
def pandasMedian (xs : List (Option ℚ)) : Option ℚ :=
  let vs := (xs.filterMap id).insertionSort (· ≤ ·)
  let n := vs.length
  if n = 0 then none
  else if n % 2 = 1 then vs.get? (n / 2)
  else
    match vs.get? (n / 2 - 1), vs.get? (n / 2) with
    | some a, some b => some ((a + b) / 2)
    | _, _ => none

/-- `df[col].fillna(df[col].median())`: missing entries become the column
median (and stay missing when the median itself is `NaN`). -/
def fillnaMedian (xs : List (Option ℚ)) : List (Option ℚ) :=
  let m := pandasMedian xs
  xs.map (fun o => match o with
    | some x => some x
    | none => m)

/-- `df[cat_cols].fillna("Unknown")` applied to one object column. -/
def categoricalFill (xs : List (Option String)) : List String :=
  xs.map (fun o => o.getD "Unknown")

/-- `pd.cut(tenure, bins=[-0.1, 12, 36, 60, inf], labels=[...],
include_lowest=True, right=True)`: the bins are `[-0.1, 12]`, `(12, 36]`,
`(36, 60]`, `(60, inf)`; a value in no bin (below `-0.1`) becomes missing,
as does a missing input. -/
def tenure_group_of (t : Option ℚ) : Option String :=
  match t with
  | none => none
  | some q =>
    if mkRat (-1) 10 ≤ q ∧ q ≤ 12 then some "New"
    else if 12 < q ∧ q ≤ 36 then some "Regular"
    else if 36 < q ∧ q ≤ 60 then some "Loyal"
    else if 60 < q then some "Champion"
    else none

/-- `np.select([mc < 30, (mc >= 30) & (mc <= 70), mc > 70], ["Low",
"Medium", "High"], default="Unknown")`; comparisons with NaN are false, so
a missing charge falls through to the default. -/
def monthly_charge_segment_of (m : Option ℚ) : String :=
  match m with
  | none => "Unknown"
  | some q =>
    if q < 30 then "Low"
    else if 30 ≤ q ∧ q ≤ 70 then "Medium"
    else if 70 < q then "High"
    else "Unknown"

/-- `InternetService.map(DSL:1, Fiber optic:1, No:0).fillna(0).astype(int)`. -/
def has_internet_service_of (s : String) : Int :=
  if s = "DSL" then 1
  else if s = "Fiber optic" then 1
  else if s = "No" then 0
  else 0

/-- `(MultipleLines == "Yes").astype(int)`. -/
def is_multi_line_user_of (s : String) : Int :=
  if s = "Yes" then 1 else 0

/-- `Contract.map(Month-to-month:0, One year:1, Two year:2).astype("Int64")`:
unmapped values stay missing (nullable integer). -/
def contract_type_code_of (s : String) : Option Int :=
  if s = "Month-to-month" then some 0
  else if s = "One year" then some 1
  else if s = "Two year" then some 2
  else none

/-- The raw data frame as read from `churn_raw.csv`: the six columns the
transformer manipulates by name, plus the names of the remaining columns
(`customerID`, `gender`, `Churn`, `PaymentMethod`, ... whatever the file
carries). -/
structure RawDF where
  tenure : List (Option ℚ)
  MonthlyCharges : List (Option ℚ)
  TotalCharges : List RawCell
  InternetService : List (Option String)
  MultipleLines : List (Option String)
  Contract : List (Option String)
  otherCols : List String

def RawDF.nrows (df : RawDF) : Nat := df.tenure.length

/-- Column names of the raw frame. -/
def RawDF.cols (df : RawDF) : List String :=
  ["tenure", "MonthlyCharges", "TotalCharges", "InternetService",
   "MultipleLines", "Contract"] ++ df.otherCols

/-- All six explicit columns have the same length. -/
def RawDF.WellFormed (df : RawDF) : Prop :=
  df.MonthlyCharges.length = df.tenure.length ∧
  df.TotalCharges.length = df.tenure.length ∧
  df.InternetService.length = df.tenure.length ∧
  df.MultipleLines.length = df.tenure.length ∧
  df.Contract.length = df.tenure.length

structure EnrichedDF where
  tenure : List (Option ℚ)
  MonthlyCharges : List (Option ℚ)
  TotalCharges : List (Option ℚ)
  InternetService : List String
  MultipleLines : List String
  Contract : List String
  tenure_group : List (Option String)
  monthly_charge_segment : List String
  has_internet_service : List Int
  is_multi_line_user : List Int
  contract_type_code : List (Option Int)
  otherCols : List String

/-- The five derived feature columns added by `transform.py`. -/
def derived_cols : List String :=
  ["tenure_group", "monthly_charge_segment", "has_internet_service",
   "is_multi_line_user", "contract_type_code"]

/-- Column names of the enriched frame (set-relevant; pandas keeps no
duplicates, and all comparisons below are at the level of sets). -/
def EnrichedDF.cols (df : EnrichedDF) : List String :=
  ["tenure", "MonthlyCharges", "TotalCharges", "InternetService",
   "MultipleLines", "Contract"] ++ df.otherCols ++ derived_cols

/-- `transform_data` (`transform.py` lines 20-90): coerce `TotalCharges`,
impute numeric medians, fill categoricals with "Unknown", derive the five
feature columns, drop `customerID` and `gender`. -/
def transform_data (df : RawDF) : EnrichedDF :=
  let tc0 := df.TotalCharges.map to_numeric
  let ten := fillnaMedian df.tenure
  let mc := fillnaMedian df.MonthlyCharges
  let tc := fillnaMedian tc0
  let isv := categoricalFill df.InternetService
  let ml := categoricalFill df.MultipleLines
  let ct := categoricalFill df.Contract
  { tenure := ten
    MonthlyCharges := mc
    TotalCharges := tc
    InternetService := isv
    MultipleLines := ml
    Contract := ct
    tenure_group := ten.map tenure_group_of
    monthly_charge_segment := mc.map monthly_charge_segment_of
    has_internet_service := isv.map has_internet_service_of
    is_multi_line_user := ml.map is_multi_line_user_of
    contract_type_code := ct.map contract_type_code_of
    otherCols := df.otherCols.filter (fun c => !(c == "customerID" || c == "gender")) }

/-- File effects of a `transform.py` run (read the raw file, write the
staged file); used only to fix the effect vocabulary of the pipeline. -/
def transform_effects : List (Effect Unit) :=
  [Effect.readFile "raw", Effect.writeFile "staged"]

/-! ## The validator (`validation.py`) -/

/-- `get_supabase_row_count` (`validation.py` lines 27-36): client creation
may raise a configuration error; otherwise the count query runs and either
returns a count or raises. `remote` is the outcome of that query. The
returned trace records whether a query was issued. -/
def get_supabase_row_count (url key : Option String)
    (remote : Except String Nat) : List (Effect Unit) × Except String Nat :=
  match get_supabase_client url key with
  | Except.error e => ([], Except.error e)
  | Except.ok _ => ([Effect.countQuery "telco_churn"], remote)

/-- The raw frame as the validator sees it: its column names, the
`customerID` column (when present) and its row count. -/
structure ValRawDF where
  cols : List String
  customerID : List (Option String)
  nrows : Nat

/-- The staged frame as the validator sees it: column names, the columns
each check inspects, and the row count `len(df)`. -/
structure ValStagedDF where
  cols : List String
  tenure : List (Option ℚ)
  MonthlyCharges : List (Option ℚ)
  TotalCharges : List (Option ℚ)
  tenure_group : List (Option String)
  monthly_charge_segment : List (Option String)
  contract_type_code : List (Option Int)
  nrows : Nat

/-- `df[col]` for the three numeric columns of check 1. -/
def ValStagedDF.numericCol (df : ValStagedDF) : String → List (Option ℚ)
  | "tenure" => df.tenure
  | "MonthlyCharges" => df.MonthlyCharges
  | "TotalCharges" => df.TotalCharges
  | _ => []

/-- Check 1: zero missing values in each numeric column present. -/
def check1 (df : ValStagedDF) : Bool :=
  (["tenure", "MonthlyCharges", "TotalCharges"].filter
      (fun c => df.cols.contains c)).all
    (fun c => ((df.numericCol c).filter (fun o => o.isNone)).length = 0)

/-- Check 2: `len(df)` equals `raw["customerID"].nunique()` when the
identifier column exists, else `len(raw_df)`; `nunique` skips missing. -/
def check2 (raw : ValRawDF) (df : ValStagedDF) : Bool :=
  let raw_unique :=
    if raw.cols.contains "customerID" then (raw.customerID.filterMap id).dedup.length
    else raw.nrows
  df.nrows = raw_unique

/-- Check 3: remote row count equals `len(df)`; a raised query error makes
the check fail. -/
def check3 (df : ValStagedDF) (r : Except String Nat) : Bool :=
  match r with
  | Except.ok c => c = df.nrows
  | Except.error _ => false

/-- Check 4: every expected `tenure_group` label occurs among the distinct
non-missing values. -/
def check4 (df : ValStagedDF) : Bool :=
  let actual :=
    if df.cols.contains "tenure_group" then df.tenure_group.filterMap id else []
  (["New", "Regular", "Loyal", "Champion"] : List String).all
    (fun s => actual.contains s)

/-- Check 5: every expected `monthly_charge_segment` label occurs. -/
def check5 (df : ValStagedDF) : Bool :=
  let actual :=
    if df.cols.contains "monthly_charge_segment" then
      df.monthly_charge_segment.filterMap id
    else []
  (["Low", "Medium", "High"] : List String).all (fun s => actual.contains s)

/-- Check 6: the distinct non-missing `contract_type_code` values form a
non-empty subset of 0, 1, 2. -/
def check6 (df : ValStagedDF) : Bool :=
  let actual :=
    if df.cols.contains "contract_type_code" then
      df.contract_type_code.filterMap id
    else []
  actual.all (fun z => z == 0 || z == 1 || z == 2) && !actual.isEmpty

structure ValidateInput where
  url : Option String
  key : Option String
  rawExists : Bool
  stagedExists : Bool
  raw : ValRawDF
  staged : ValStagedDF
  remoteCount : Except String Nat

structure ValidationReport where
  checks : List (String × Bool)
  all_ok : Bool
deriving DecidableEq

/-- `validate` (`validation.py` lines 42-169): missing input files abort
before any check; otherwise both files are read and the six checks are
evaluated independently, check 3 swallowing a failed remote query; the
summary is the conjunction of all six. -/
def validate (inp : ValidateInput) : List (Effect Unit) × Option ValidationReport :=
  if inp.rawExists = false then ([], none)
  else if inp.stagedExists = false then ([], none)
  else
    let readEffs : List (Effect Unit) := [Effect.readFile "raw", Effect.readFile "staged"]
    let c1 := check1 inp.staged
    let c2 := check2 inp.raw inp.staged
    let q := get_supabase_row_count inp.url inp.key inp.remoteCount
    let c3 := check3 inp.staged q.2
    let c4 := check4 inp.staged
    let c5 := check5 inp.staged
    let c6 := check6 inp.staged
    let checks : List (String × Bool) :=
      [("No missing values in tenure, MonthlyCharges, TotalCharges", c1),
       ("Unique count of rows matches original dataset", c2),
       ("Row count matches Supabase table", c3),
       ("All tenure_group segments exist", c4),
       ("All monthly_charge_segment segments exist", c5),
       ("Contract codes are only \x7b0,1,2\x7d", c6)]
    (readEffs ++ q.1, some { checks := checks, all_ok := checks.all (fun p => p.2) })

/-! ## Helper lemmas for the loader theorems -/

theorem attemptLoop_insert_bound {ρ : Type} (tbl : String) (ins : Nat → Bool)
    (bn : Nat) (recs : List ρ) (attempt : Nat) :
    ((attemptLoop tbl ins bn recs attempt).1.countP isInsert) ≤
      MAX_RETRIES + 1 - attempt := by
  rw [attemptLoop]
  split
  · next h =>
    split
    · simp [isInsert, List.countP_cons]
      omega
    · split
      · simp [isInsert, List.countP_cons]
        omega
      · next hne =>
        have ih := attemptLoop_insert_bound tbl ins bn recs (attempt + 1)
        simp only [MAX_RETRIES] at *
        simp [List.countP_cons, isInsert]
        omega
  · simp
termination_by MAX_RETRIES + 1 - attempt
decreasing_by simp only [MAX_RETRIES] at *; omega

theorem countP_flatten_le {α : Type} (p : α → Bool) (k : Nat) (ls : List (List α))
    (h : ∀ t ∈ ls, t.countP p ≤ k) :
    ls.flatten.countP p ≤ k * ls.length := by
  induction ls with
  | nil => simp
  | cons a ls ih =>
    simp only [List.flatten_cons, List.countP_append, List.length_cons, Nat.mul_succ]
    have h1 := h a (List.mem_cons_self a ls)
    have h2 := ih (fun t ht => h t (List.mem_cons_of_mem a ht))
    omega

/-! ## Claim theorems -/

set_option maxRecDepth 4000 in
/-- C2: the Batch Loader partitions any input of `n` records into
consecutive batches of at most 200 records each, preserving record order
(the concatenation of the batches is the input), yielding exactly
`ceil(n/200)` batches; for 450 records exactly 3 batches of sizes 200,
200 and 50 are attempted. -/
theorem C2_batch_partition {α : Type} (rows : List α) :
    (batches rows).flatten = rows ∧
    (batches rows).length = (rows.length + (BATCH_SIZE - 1)) / BATCH_SIZE ∧
    (∀ b ∈ batches rows, b.length ≤ BATCH_SIZE) ∧
    (batches (List.range 450)).map List.length = [200, 200, 50] := by
  refine ⟨batches_flatten rows, by simp [batches_length, nbatches], ?_, by decide⟩
  intro b hb
  have := batches_sizes rows
  simp only [List.all_eq_true, decide_eq_true_eq] at this
  exact this b hb

theorem C2_batch_partition_witness :
    ([0].length ≤ BATCH_SIZE) ∧
      (batches (List.range 450)).map List.length = [200, 200, 50] :=
  ⟨(C2_batch_partition [0]).2.2.1 [0] (by decide),
   (C2_batch_partition ([] : List Nat)).2.2.2⟩

/-- C9: for every staged input of `n` rows the Batch Loader terminates
(the model is a total function), processes exactly `ceil(n/200)` batches
(one result per batch), makes at most 3 insertion attempts per batch, and
hence at most `3 * ceil(n/200)` insertion attempts in total. -/
theorem C9_attempt_bound {ρ : Type} (ins : Nat → Nat → Bool) (rows : List ρ) :
    (batches rows).length = (rows.length + (BATCH_SIZE - 1)) / BATCH_SIZE ∧
    ((runBatches "telco_churn" ins (batches rows)).2).length = (batches rows).length ∧
    (∀ (insb : Nat → Bool) (bn : Nat) (recs : List ρ),
      ((runBatch "telco_churn" insb bn recs).1.countP isInsert) ≤ MAX_RETRIES) ∧
    ((runBatches "telco_churn" ins (batches rows)).1).countP isInsert ≤
      MAX_RETRIES * (batches rows).length := by
  refine ⟨by simp [batches_length, nbatches], by simp [runBatches], ?_, ?_⟩
  · intro insb bn recs
    have := attemptLoop_insert_bound "telco_churn" insb bn recs 1
    simpa [runBatch] using this
  · have hbound : ∀ t ∈ ((batches rows).enum.map
        (fun p => runBatch "telco_churn" (ins (p.1 + 1)) (p.1 + 1) p.2)).map Prod.fst,
        t.countP isInsert ≤ MAX_RETRIES := by
      intro t ht
      simp only [List.mem_map] at ht
      obtain ⟨r, ⟨p, _, rfl⟩, rfl⟩ := ht
      have := attemptLoop_insert_bound "telco_churn" (ins (p.1 + 1)) (p.1 + 1) p.2 1
      simpa [runBatch] using this
    have := countP_flatten_le isInsert MAX_RETRIES _ hbound
    simpa [runBatches] using this

/-- C1: a batch whose insertion keeps failing is retried on the same
records for 3 total attempts with waits of `2 * attemptNumber` units
between consecutive attempts (2 after attempt 1, 4 after attempt 2), then
skipped (result `false`); every other batch is still processed, its result
being exactly what running it alone gives. -/
theorem C1_retry_policy {ρ : Type} (ins : Nat → Nat → Bool) (rows : List ρ)
    (b : Nat) (hb : b < (batches rows).length)
    (hfail : ∀ k, ins (b + 1) k = false) :
    runBatch "telco_churn" (ins (b + 1)) (b + 1) ((batches rows).get ⟨b, hb⟩) =
      ([Effect.insertRows "telco_churn" (b + 1) ((batches rows).get ⟨b, hb⟩) 1,
        Effect.sleep 2,
        Effect.insertRows "telco_churn" (b + 1) ((batches rows).get ⟨b, hb⟩) 2,
        Effect.sleep 4,
        Effect.insertRows "telco_churn" (b + 1) ((batches rows).get ⟨b, hb⟩) 3],
       false) ∧
    ((runBatches "telco_churn" ins (batches rows)).2)[b]? = some false ∧
    (∀ j, ((runBatches "telco_churn" ins (batches rows)).2)[j]? =
      ((batches rows)[j]?).map
        (fun recs => (runBatch "telco_churn" (ins (j + 1)) (j + 1) recs).2)) := by
  have hrun : ∀ recs : List ρ, runBatch "telco_churn" (ins (b + 1)) (b + 1) recs =
      ([Effect.insertRows "telco_churn" (b + 1) recs 1,
        Effect.sleep 2,
        Effect.insertRows "telco_churn" (b + 1) recs 2,
        Effect.sleep 4,
        Effect.insertRows "telco_churn" (b + 1) recs 3], false) := by
    intro recs
    simp [runBatch, attemptLoop, MAX_RETRIES, hfail]
  have hgen : ∀ j, ((runBatches "telco_churn" ins (batches rows)).2)[j]? =
      ((batches rows)[j]?).map
        (fun recs => (runBatch "telco_churn" (ins (j + 1)) (j + 1) recs).2) := by
    intro j
    simp only [runBatches, List.getElem?_map, List.getElem?_enum, Option.map_map]
    cases (batches rows)[j]? <;> rfl
  refine ⟨hrun _, ?_, hgen⟩
  rw [hgen b, List.getElem?_eq_getElem hb]
  simp [hrun]

theorem C1_retry_policy_witness :
    ((runBatches "telco_churn" (fun _ _ => false) (batches [0, 1])).2)[0]? =
      some false :=
  (C1_retry_policy (fun _ _ => false) [0, 1] 0 (by decide) (fun _ => rfl)).2.1

/-- A one-row raw frame whose (non-missing) tenure is negative. -/
def negTenureDF : RawDF :=
  { tenure := [some (-1)]
    MonthlyCharges := [some 50]
    TotalCharges := [RawCell.num 50]
    InternetService := [some "DSL"]
    MultipleLines := [some "No"]
    Contract := [some "One year"]
    otherCols := ["customerID", "gender", "Churn", "PaymentMethod"] }

/-- C3 counterexample: the claim maps every tenure at or below 12 —
including negative values — to "New", but `pd.cut` with lowest bin edge
`-0.1` leaves a tenure of `-1` outside every bin, so its `tenure_group`
is missing, not "New". -/
theorem C3_counterexample :
    (transform_data negTenureDF).tenure_group = [none] ∧
    (transform_data negTenureDF).tenure_group ≠ [some "New"] := by
  constructor <;> decide

/-- C3 (amended): after numeric imputation, a tenure `t` with
`-0.1 ≤ t` gets `tenure_group` "New" when `t ≤ 12`, "Regular" when
`12 < t ≤ 36`, "Loyal" when `36 < t ≤ 60` and "Champion" when `60 < t`
(so 12→New, 13→Regular, 36→Regular, 37→Loyal, 60→Loyal, 61→Champion);
but a tenure below the lowest bin edge `-0.1` gets a missing
`tenure_group`, not "New". -/
theorem C3_tenure_group_amended (t : ℚ) :
    (mkRat (-1) 10 ≤ t → tenure_group_of (some t) =
      some (if t ≤ 12 then "New" else if t ≤ 36 then "Regular"
            else if t ≤ 60 then "Loyal" else "Champion")) ∧
    (t < mkRat (-1) 10 → tenure_group_of (some t) = none) := by
  have e : tenure_group_of (some t) =
      (if mkRat (-1) 10 ≤ t ∧ t ≤ 12 then some "New"
       else if 12 < t ∧ t ≤ 36 then some "Regular"
       else if 36 < t ∧ t ≤ 60 then some "Loyal"
       else if 60 < t then some "Champion"
       else none) := rfl
  have elow : (mkRat (-1) 10 : ℚ) = -1/10 := by
    rw [Rat.mkRat_eq_divInt, Rat.divInt_eq_div]
    norm_num
  constructor
  · intro h
    rw [elow] at h
    rcases le_or_lt t 12 with h12 | h12
    · simp [e, elow, h, h12]
    · rcases le_or_lt t 36 with h36 | h36
      · simp [e, not_le.mpr h12, h12, h36]
      · rcases le_or_lt t 60 with h60 | h60
        · have h12' : ¬ t ≤ 12 := by linarith
          simp [e, h12', not_le.mpr h36, h36, h60]
        · have h12' : ¬ t ≤ 12 := by linarith
          have h36' : ¬ t ≤ 36 := by linarith
          simp [e, h12', h36', not_le.mpr h60, h60]
  · intro h
    rw [elow] at h
    have h1 : ¬ (-1/10 : ℚ) ≤ t := not_le.mpr h
    have h2 : ¬ (12 : ℚ) < t := by intro hc; linarith
    have h3 : ¬ (36 : ℚ) < t := by intro hc; linarith
    have h4 : ¬ (60 : ℚ) < t := by intro hc; linarith
    simp [e, elow, h1, h2, h3, h4]

theorem C3_tenure_group_amended_witness :
    tenure_group_of (some 12) = some "New" ∧
    tenure_group_of (some 13) = some "Regular" ∧
    tenure_group_of (some 61) = some "Champion" ∧
    tenure_group_of (some (-1)) = none := by
  refine ⟨?_, ?_, ?_, (C3_tenure_group_amended (-1)).2 (by decide)⟩
  · have h := (C3_tenure_group_amended 12).1 (by decide)
    norm_num at h
    exact h
  · have h := (C3_tenure_group_amended 13).1 (by decide)
    norm_num at h
    exact h
  · have h := (C3_tenure_group_amended 61).1 (by decide)
    norm_num at h
    exact h

/-- C4: every missing value of the three numeric fields — including
`TotalCharges` entries that became missing through `pd.to_numeric`
coercion — is replaced by the median of that field computed over the
current input after coercion, and every present value is left unchanged. -/
theorem C4_median_imputation (df : RawDF) (i : Nat) :
    (((df.TotalCharges.map to_numeric)[i]? = some none →
        (transform_data df).TotalCharges[i]? =
          some (pandasMedian (df.TotalCharges.map to_numeric))) ∧
      (df.tenure[i]? = some none →
        (transform_data df).tenure[i]? = some (pandasMedian df.tenure)) ∧
      (df.MonthlyCharges[i]? = some none →
        (transform_data df).MonthlyCharges[i]? =
          some (pandasMedian df.MonthlyCharges))) ∧
    ((∀ q : ℚ, (df.TotalCharges.map to_numeric)[i]? = some (some q) →
        (transform_data df).TotalCharges[i]? = some (some q)) ∧
      (∀ q : ℚ, df.tenure[i]? = some (some q) →
        (transform_data df).tenure[i]? = some (some q)) ∧
      (∀ q : ℚ, df.MonthlyCharges[i]? = some (some q) →
        (transform_data df).MonthlyCharges[i]? = some (some q))) := by
  refine ⟨⟨?_, ?_, ?_⟩, ?_, ?_, ?_⟩ <;>
    first
    | (intro h
       simp only [transform_data, fillnaMedian, List.getElem?_map, h, Option.map_some]
       rfl)
    | (intro q h
       simp only [transform_data, fillnaMedian, List.getElem?_map, h, Option.map_some]
       rfl)

/-- A two-row raw frame with one blank `TotalCharges` (coerced to missing)
and one missing `MonthlyCharges`. -/
def medianDF : RawDF :=
  { tenure := [some 2, some 10]
    MonthlyCharges := [some 30, none]
    TotalCharges := [RawCell.text " ", RawCell.num 80]
    InternetService := [some "DSL", some "No"]
    MultipleLines := [some "No", some "Yes"]
    Contract := [some "One year", some "Two year"]
    otherCols := ["customerID", "gender", "Churn", "PaymentMethod"] }

theorem C4_median_imputation_witness :
    (transform_data medianDF).TotalCharges[0]? =
      some (pandasMedian (medianDF.TotalCharges.map to_numeric)) ∧
    (transform_data medianDF).MonthlyCharges[1]? =
      some (pandasMedian medianDF.MonthlyCharges) ∧
    (transform_data medianDF).TotalCharges[0]? = some (some 80) :=
  ⟨((C4_median_imputation medianDF 0).1).1 (by decide),
   ((C4_median_imputation medianDF 1).1).2.2 (by decide),
   by decide⟩

/-- C5: if any of the 12 required columns is absent from the staged input,
the Batch Loader makes zero insert calls, and — whenever it got past the
file and configuration checks — ends with the missing-columns abort. -/
theorem C5_missing_columns_abort {ρ : Type} (inp : LoadInput ρ) (c : String)
    (hc : c ∈ required_cols) (hm : inp.cols.contains c = false) :
    ((load_to_supabase inp).1.all (fun e => !isInsert e)) = true ∧
    (inp.fileExists = true →
      ∀ u, get_supabase_client inp.url inp.key = Except.ok u →
        (load_to_supabase inp).2 = LoadStatus.missingColumns) := by
  have hex : ∃ x ∈ required_cols, x ∉ inp.cols := ⟨c, hc, by simpa using hm⟩
  constructor
  · cases hfe : inp.fileExists with
    | false => simp [load_to_supabase, hfe]
    | true =>
      cases hcl : get_supabase_client inp.url inp.key with
      | error e => simp [load_to_supabase, hfe, hcl]
      | ok u => simp [load_to_supabase, hfe, hcl, hex, isInsert]
  · intro hfe u hcl
    simp [load_to_supabase, hfe, hcl, hex]

/-- A staged input whose schema lacks all but the `tenure` column. -/
def missingColsInput : LoadInput Unit :=
  { url := some "http://store"
    key := some "secret"
    fileExists := true
    cols := ["tenure"]
    rows := []
    ins := fun _ _ => true }

theorem C5_missing_columns_abort_witness :
    ((load_to_supabase missingColsInput).1.all (fun e => !isInsert e)) = true ∧
    (load_to_supabase missingColsInput).2 = LoadStatus.missingColumns :=
  ⟨(C5_missing_columns_abort missingColsInput "Churn" (by decide) (by decide)).1,
   (C5_missing_columns_abort missingColsInput "Churn" (by decide) (by decide)).2
     rfl () rfl⟩

/-- C6: the Validator's third check passes exactly when the remote row
count query returns the number of enriched records; a raised query error
is recorded as a failed check, and checks 4-6 and the summary are still
evaluated and reported. -/
theorem C6_remote_count_check (inp : ValidateInput)
    (h1 : inp.rawExists = true) (h2 : inp.stagedExists = true) :
    ∃ rep, (validate inp).2 = some rep ∧
      rep.checks.length = 6 ∧
      (((rep.checks[2]?).map Prod.snd = some true) ↔
        (get_supabase_row_count inp.url inp.key inp.remoteCount).2 =
          Except.ok inp.staged.nrows) ∧
      (∀ e, (get_supabase_row_count inp.url inp.key inp.remoteCount).2 =
          Except.error e →
        ((rep.checks[2]?).map Prod.snd = some false ∧
         rep.checks[3]? = some ("All tenure_group segments exist", check4 inp.staged) ∧
         rep.checks[4]? =
           some ("All monthly_charge_segment segments exist", check5 inp.staged) ∧
         rep.checks[5]? =
           some ("Contract codes are only \x7b0,1,2\x7d", check6 inp.staged))) ∧
      rep.all_ok = rep.checks.all (fun p => p.2) := by
  simp only [validate, h1, h2, Bool.true_eq_false, if_false]
  refine ⟨_, rfl, rfl, ?_, ?_, rfl⟩
  · cases hq : (get_supabase_row_count inp.url inp.key inp.remoteCount).2 with
    | ok c => simp [check3, hq]
    | error e => simp [check3, hq]
  · intro e he
    simp [check3, he]

/-- A validation input whose remote count query raises. -/
def remoteErrInput : ValidateInput :=
  { url := some "http://store"
    key := some "secret"
    rawExists := true
    stagedExists := true
    raw := { cols := ["customerID"], customerID := [some "a"], nrows := 1 }
    staged :=
      { cols := ["tenure"]
        tenure := [some 1]
        MonthlyCharges := []
        TotalCharges := []
        tenure_group := []
        monthly_charge_segment := []
        contract_type_code := []
        nrows := 1 }
    remoteCount := Except.error "connection refused" }

theorem C6_remote_count_check_witness :
    ∃ rep, (validate remoteErrInput).2 = some rep ∧
      rep.checks.length = 6 ∧
      (((rep.checks[2]?).map Prod.snd = some true) ↔
        (get_supabase_row_count remoteErrInput.url remoteErrInput.key
            remoteErrInput.remoteCount).2 =
          Except.ok remoteErrInput.staged.nrows) ∧
      (∀ e, (get_supabase_row_count remoteErrInput.url remoteErrInput.key
            remoteErrInput.remoteCount).2 = Except.error e →
        ((rep.checks[2]?).map Prod.snd = some false ∧
         rep.checks[3]? =
           some ("All tenure_group segments exist", check4 remoteErrInput.staged) ∧
         rep.checks[4]? =
           some ("All monthly_charge_segment segments exist",
             check5 remoteErrInput.staged) ∧
         rep.checks[5]? =
           some ("Contract codes are only \x7b0,1,2\x7d",
             check6 remoteErrInput.staged))) ∧
      rep.all_ok = rep.checks.all (fun p => p.2) :=
  C6_remote_count_check remoteErrInput rfl rfl

/-- A validation input with both settings absent. -/
def noConfigValInput : ValidateInput :=
  { url := none
    key := none
    rawExists := true
    stagedExists := true
    raw := { cols := ["customerID"], customerID := [some "a"], nrows := 1 }
    staged :=
      { cols := ["tenure"]
        tenure := [some 1]
        MonthlyCharges := []
        TotalCharges := []
        tenure_group := []
        monthly_charge_segment := []
        contract_type_code := []
        nrows := 1 }
    remoteCount := Except.ok 1 }

/-- C7 counterexample: with both settings absent the Validator does not
halt before performing any operation — it still reads both input files
and evaluates all six checks (only the remote-count check fails). -/
theorem C7_counterexample :
    truthy noConfigValInput.url = false ∧
    truthy noConfigValInput.key = false ∧
    (validate noConfigValInput).1 =
      [Effect.readFile "raw", Effect.readFile "staged"] ∧
    ∃ rep, (validate noConfigValInput).2 = some rep ∧ rep.checks.length = 6 :=
  ⟨rfl, rfl, rfl, ⟨_, rfl, rfl⟩⟩

/-- C7 (amended): when either setting is absent, `get_supabase_client`
raises a configuration error; the load entry point then performs no
operation (no staged-file read, no insertion) and `create_table_if_not_exists`
attempts no table creation; but the validation entry point does not halt:
it still reads both files and evaluates all six checks, the remote-count
check failing. -/
theorem C7_config_amended (linp : LoadInput Unit) (vinp : ValidateInput)
    (hl : (truthy linp.url && truthy linp.key) = false)
    (hv : (truthy vinp.url && truthy vinp.key) = false)
    (hre : vinp.rawExists = true) (hse : vinp.stagedExists = true) :
    (load_to_supabase linp).1 = [] ∧
    (linp.fileExists = true →
      (load_to_supabase linp).2 = LoadStatus.configError) ∧
    create_table_if_not_exists linp.url linp.key = ([], false) ∧
    (validate vinp).1 = [Effect.readFile "raw", Effect.readFile "staged"] ∧
    (∃ rep, (validate vinp).2 = some rep ∧ rep.checks.length = 6 ∧
      (rep.checks[2]?).map Prod.snd = some false) := by
  have hcl : get_supabase_client linp.url linp.key =
      Except.error "Missing SUPABASE_URL or SUPABASE_KEY in .env" := by
    simp [get_supabase_client, hl]
  have hcv : get_supabase_client vinp.url vinp.key =
      Except.error "Missing SUPABASE_URL or SUPABASE_KEY in .env" := by
    simp [get_supabase_client, hv]
  refine ⟨?_, ?_, ?_, ?_, ?_⟩
  · cases hfe : linp.fileExists with
    | false => simp [load_to_supabase, hfe]
    | true => simp [load_to_supabase, hfe, hcl]
  · intro hfe
    simp [load_to_supabase, hfe, hcl]
  · simp [create_table_if_not_exists, hcl]
  · simp [validate, hre, hse, get_supabase_row_count, hcv]
  · simp only [validate, hre, hse, Bool.true_eq_false, if_false]
    refine ⟨_, rfl, rfl, ?_⟩
    simp [get_supabase_row_count, hcv, check3]

theorem C7_config_amended_witness :
    (validate noConfigValInput).1 =
      [Effect.readFile "raw", Effect.readFile "staged"] ∧
    create_table_if_not_exists none none = ([], false) :=
  ⟨(C7_config_amended
      { url := none, key := none, fileExists := false, cols := [],
        rows := ([] : List Unit), ins := fun _ _ => true }
      noConfigValInput rfl rfl rfl rfl).2.2.2.1,
   (C7_config_amended
      { url := none, key := none, fileExists := false, cols := [],
        rows := ([] : List Unit), ins := fun _ _ => true }
      noConfigValInput rfl rfl rfl rfl).2.2.1⟩

/-- C10: a validation run only reads: every effect it performs is a file
read or a count query — it never writes a file, inserts rows, creates a
table or otherwise mutates the raw file, the staged file or the remote
table, whether the checks pass or fail. -/
theorem C10_validate_readonly (inp : ValidateInput) :
    ((validate inp).1.all readonlyEffect) = true := by
  cases hre : inp.rawExists with
  | false => simp [validate, hre]
  | true =>
    cases hse : inp.stagedExists with
    | false => simp [validate, hre, hse]
    | true =>
      cases hcl : get_supabase_client inp.url inp.key with
      | error e =>
        simp [validate, hre, hse, get_supabase_row_count, hcl, readonlyEffect]
      | ok u =>
        simp [validate, hre, hse, get_supabase_row_count, hcl, readonlyEffect]

/-- C8: for every raw input, the Transformer's output has exactly as many
rows as the input in every column, and its column set equals the input's
column set minus customerID and gender plus the five derived columns. -/
theorem C8_transform_shape (df : RawDF) (h : df.WellFormed) :
    ((transform_data df).tenure.length = df.nrows ∧
     (transform_data df).MonthlyCharges.length = df.nrows ∧
     (transform_data df).TotalCharges.length = df.nrows ∧
     (transform_data df).InternetService.length = df.nrows ∧
     (transform_data df).MultipleLines.length = df.nrows ∧
     (transform_data df).Contract.length = df.nrows ∧
     (transform_data df).tenure_group.length = df.nrows ∧
     (transform_data df).monthly_charge_segment.length = df.nrows ∧
     (transform_data df).has_internet_service.length = df.nrows ∧
     (transform_data df).is_multi_line_user.length = df.nrows ∧
     (transform_data df).contract_type_code.length = df.nrows) ∧
    (transform_data df).cols.toFinset =
      (df.cols.toFinset \ ({"customerID", "gender"} : Finset String)) ∪
        derived_cols.toFinset := by
  obtain ⟨h1, h2, h3, h4, h5⟩ := h
  constructor
  · refine ⟨?_, ?_, ?_, ?_, ?_, ?_, ?_, ?_, ?_, ?_, ?_⟩ <;>
      simp [transform_data, fillnaMedian, categoricalFill, RawDF.nrows,
        h1, h2, h3, h4, h5]
  · ext c
    simp only [EnrichedDF.cols, RawDF.cols, derived_cols, transform_data,
      List.toFinset_append, Finset.mem_union, Finset.mem_sdiff,
      List.mem_toFinset, Finset.mem_insert, Finset.mem_singleton,
      List.mem_filter, List.mem_cons, List.not_mem_nil, or_false,
      Bool.not_eq_true, Bool.or_eq_true, beq_iff_eq, Bool.not_eq_eq_eq_not,
      Bool.not_true, Bool.or_eq_false_iff, beq_eq_false_iff_ne, ne_eq]
    by_cases hc1 : c = "customerID" <;> by_cases hc2 : c = "gender" <;> simp_all

/-- A small well-formed raw frame used to instantiate C8. -/
def sampleDF : RawDF :=
  { tenure := [some 5]
    MonthlyCharges := [some 80]
    TotalCharges := [RawCell.num 400]
    InternetService := [some "Fiber optic"]
    MultipleLines := [some "Yes"]
    Contract := [some "Month-to-month"]
    otherCols := ["customerID", "gender", "Churn", "PaymentMethod"] }

theorem C8_transform_shape_witness :
    (transform_data sampleDF).tenure.length = sampleDF.nrows ∧
    (transform_data sampleDF).cols.toFinset =
      (sampleDF.cols.toFinset \ ({"customerID", "gender"} : Finset String)) ∪
        derived_cols.toFinset :=
  ⟨((C8_transform_shape sampleDF ⟨rfl, rfl, rfl, rfl, rfl⟩).1).1,
   (C8_transform_shape sampleDF ⟨rfl, rfl, rfl, rfl, rfl⟩).2⟩

end ETL
